import Mathlib

/-!
# type-stack: parser and stack-type verifier, shallow embedding

This file embeds the recursive-descent parser and the stack-type
verification pass of the type-stack language front end (`src/index.ts`,
class `Parser`, and its `#checkFunctions` / `traverse` walk) as Lean
definitions, and proves the behavioural properties stated about them.

The token model, the `StackType` enumeration and the `StackFunction`
record live in modules of the repository that are not part of the core
source (`scan.ts`, `stack.ts`, `functions.ts`); they are modelled from
the specification, restricted to the fields the core actually reads.

JavaScript peculiarities are modelled explicitly:
* reading `tokens[-1]` (an `undefined` element) and then dereferencing a
  field throws; this outcome is the `PRes.crash` constructor;
* the parser's mutual recursion is driven by a fuel counter; exhausting
  it yields `PRes.timeout`, which no theorem below ever relies on;
* JavaScript objects used as string-keyed maps become association lists
  with insert-or-overwrite (`setKey`) and first-match lookup
  (`lookupKey`).
-/

namespace TypeStack

/-- Modelled from the spec: source position produced by the scanner
(`scan.ts`, not under `src/`): 1-based line and column. -/
structure Pos where
  line : Nat
  char : Nat
  deriving DecidableEq, Repr

/-- Modelled from the spec: token classification from `scan.ts` — literal
kinds, identifier, keyword, and the five punctuation kinds. -/
inductive TokenType where
  | Int
  | Float
  | Str
  | Bool
  | Identifier
  | Keyword
  | OpenBracket
  | CloseBracket
  | OpenParen
  | CloseParen
  | Colon
  deriving DecidableEq, Repr

/-- Modelled from the spec: a token from `scan.ts`. The value payload is
kept as the raw text; the parser and verifier only ever compare it
against keyword strings or copy it around. -/
structure Token where
  type : TokenType
  startPos : Pos
  endPos : Pos
  value : String
  deriving DecidableEq, Repr

/-- Modelled from the spec: the closed `StackType` enumeration from
`stack.ts`: Int, Float, Str, Bool and the wildcard Any. -/
inductive StackType where
  | Int
  | Float
  | Str
  | Bool
  | Any
  deriving DecidableEq, Repr

/-- Modelled from the spec: rendering of a `StackType` inside an error
message (the source interpolates the enum value into the message). -/
def StackType.render : StackType → String
  | .Int => "int"
  | .Float => "float"
  | .Str => "str"
  | .Bool => "bool"
  | .Any => "any"

/-- The statement variants of the parse tree (`StatementType` in
`parse.ts`). -/
inductive StatementType where
  | ForLoop
  | WhileLoop
  | Loop
  | If
  deriving DecidableEq, Repr

/-- A node of the parse tree: either an `Expression` (a token promoted to
program position, `block.push(current as Expression)`) or a `Statement`
wrapping a block and, for `If`, an optional else block. -/
inductive Item where
  | expr (tok : Token)
  | stmt (type : StatementType) (block : List Item) (elseBlock : Option (List Item))

/-- `Program = Array<Expression | Statement>` from `parse.ts`. -/
abbrev Program := List Item

/-- Modelled from the spec plus the fields `parse.ts` reads and writes: a
function-table entry carries its declared stack type, its parameter map
and its body. -/
structure StackFunction where
  stack : StackType
  params : List (String × StackType)
  body : Program

/-- The shared function table (`Record<string, StackFunction>`). -/
abbrev Funcs := List (String × StackFunction)

/-- First-match lookup in a string-keyed association list; models both
`name in obj` (via `Option.isSome`) and `obj[name]`. -/
def lookupKey {α : Type} : List (String × α) → String → Option α
  | [], _ => none
  | (k, v) :: rest, key => if k = key then some v else lookupKey rest key

/-- Insert-or-overwrite for a string-keyed association list; models the
JavaScript assignment `obj[name] = v` (last write wins). -/
def setKey {α : Type} : List (String × α) → String → α → List (String × α)
  | [], key, v => [(key, v)]
  | (k, v') :: rest, key, v =>
      if k = key then (k, v) :: rest else (k, v') :: setKey rest key v

/-- An error value: the source builds a JavaScript `Error` whose message
starts with the 1-based `line:char` of the offending position. -/
def errAt (p : Pos) (msg : String) : String :=
  toString p.line ++ ":" ++ toString p.char ++ " " ++ msg

/-- The `switch(item.value)` of the verifier on a keyword expression: the
four cast keywords and `any` overwrite the stack type, anything else
(e.g. `break`, `continue`) leaves it unchanged. -/
def castType (v : String) (stack : StackType) : StackType :=
  if v = "int" then .Int
  else if v = "float" then .Float
  else if v = "str" then .Str
  else if v = "bool" then .Bool
  else if v = "any" then .Any
  else stack

/-- The stack-type verification walk, `traverse` inside
`Parser.#checkFunctions` (`parse.ts`): threads a single current stack
type through a block, checking identifiers against the parameter context
`ctx` and the function table `fns`, and recursing into statement blocks
with the initial types the source dictates. The `If` case reproduces the
source exactly: when an else block is present it traverses `item.block`
a second time (not `item.elseBlock`). -/
def traverse (fns : Funcs) : Program → List (String × StackType) → StackType → Option String
  | [], _, _ => none
  | .expr tok :: rest, ctx, stack =>
      if tok.type = .Identifier then
        match lookupKey ctx tok.value with
        | some t => traverse fns rest ctx t
        | none =>
            match lookupKey fns tok.value with
            | some f =>
                if f.stack ≠ stack ∧ f.stack ≠ .Any then
                  some (errAt tok.startPos ("Attempt to call function not found at stack " ++ stack.render ++ ": `" ++ tok.value ++ "`"))
                else
                  traverse fns rest ctx stack
            | none => some (errAt tok.startPos ("Undeclared identifier: `" ++ tok.value ++ "`"))
      else if tok.type = .Keyword then
        traverse fns rest ctx (castType tok.value stack)
      else if tok.type = .Int then traverse fns rest ctx .Int
      else if tok.type = .Float then traverse fns rest ctx .Float
      else if tok.type = .Str then traverse fns rest ctx .Str
      else if tok.type = .Bool then traverse fns rest ctx .Bool
      else traverse fns rest ctx stack
  | .stmt sty blk els :: rest, ctx, stack =>
      match sty with
      | .Loop =>
          match traverse fns blk ctx stack with
          | some e => some e
          | none => traverse fns rest ctx stack
      | .ForLoop =>
          match traverse fns blk ctx .Int with
          | some e => some e
          | none => traverse fns rest ctx .Int
      | .WhileLoop =>
          match traverse fns blk ctx .Bool with
          | some e => some e
          | none => traverse fns rest ctx .Bool
      | .If =>
          match els with
          | some _ =>
              match traverse fns blk ctx .Bool, traverse fns blk ctx .Bool with
              | _, some e => some e
              | some e, none => some e
              | none, none => traverse fns rest ctx .Bool
          | none =>
              match traverse fns blk ctx .Bool with
              | some e => some e
              | none => traverse fns rest ctx .Bool

/-- Outcome of a parser computation. `crash` models a thrown JavaScript
`TypeError` (dereferencing an `undefined` array element); `timeout`
models fuel exhaustion of the embedding and is never produced on the
runs the theorems below describe; `err` is a returned `Error`; `ok` is a
normal result. -/
inductive PRes (α : Type) where
  | crash : PRes α
  | timeout : PRes α
  | err (e : String) : PRes α
  | ok (a : α) : PRes α

/-- Checking the body of every newly declared function, the second half
of `Parser.#checkFunctions`: each body is traversed with that function's
own parameter map and declared stack type; a missing table entry would
be an `undefined` dereference. -/
def checkNewFunctions (functions : Funcs) : List String → PRes Unit
  | [] => .ok ()
  | fn :: rest =>
      match lookupKey functions fn with
      | none => .crash
      | some f =>
          match traverse functions f.body f.params f.stack with
          | some e => .err e
          | none => checkNewFunctions functions rest

/-- `Parser.#checkFunctions`: the root program is traversed with the
empty identifier context and stack type Int, then every newly declared
function body is checked. -/
def checkFunctions (prog : Program) (functions : Funcs) (newFunctions : List String) : PRes Unit :=
  match traverse functions prog [] .Int with
  | some e => .err e
  | none => checkNewFunctions functions newFunctions

/-- `Parser.#isAtEnd`. -/
def isAtEnd (tokens : List Token) (pointer : Nat) : Bool :=
  tokens.length ≤ pointer

/-- `Parser.#peek`: past the end of input it synthesizes a closing
bracket one column after the last token; with `pointer = 0` on empty
input the source reads `tokens[-1]` and dereferencing it throws, which
is the `none` result here. -/
def peek (tokens : List Token) (pointer : Nat) : Option Token :=
  if tokens.length ≤ pointer then
    if pointer = 0 then none
    else
      (tokens.get? (pointer - 1)).map fun latestToken =>
        { type := .CloseBracket,
          startPos := ⟨latestToken.endPos.line, latestToken.endPos.char + 1⟩,
          endPos := ⟨latestToken.endPos.line, latestToken.endPos.char + 1⟩,
          value := "" }
  else tokens.get? pointer

/-- `Parser.#expect`: increments the cursor, then reports whether the new
current token has the wanted type (and value, when given). The cursor
stays advanced whether or not the token matched. -/
def expect (tokens : List Token) (pointer : Nat) (ty : TokenType) (value : Option String) : Bool × Nat :=
  let p := pointer + 1
  if tokens.length ≤ p then (false, p)
  else
    match tokens.get? p with
    | none => (false, p)
    | some t =>
        (decide (t.type = ty) && (match value with
          | none => true
          | some v => decide (v = t.value)), p)

/-- The mutable fields of the `Parser` object threaded through parsing:
the cursor, the shared function table, and the list of newly declared
function names. -/
structure PState where
  pointer : Nat
  functions : Funcs
  newFunctions : List String

/-- Build the error the source raises at the position of `#peek()`,
propagating the crash `#peek()` itself can raise. -/
def peekErr {α : Type} (tokens : List Token) (pointer : Nat) (msg : String) : PRes α :=
  match peek tokens pointer with
  | none => .crash
  | some t => .err (errAt t.startPos msg)

/-- The `params` map of the five parameter type keywords
(`{"int": StackType.Int, ...}` at the `name :` annotation). -/
def paramTypeOf : String → Option StackType
  | "int" => some .Int
  | "float" => some .Float
  | "str" => some .Str
  | "bool" => some .Bool
  | "any" => some .Any
  | _ => none

/-- The map of the five function return-type markers
(`{"@int": StackType.Int, ...}`). -/
def fnTypeOf : String → Option StackType
  | "@int" => some .Int
  | "@float" => some .Float
  | "@str" => some .Str
  | "@bool" => some .Bool
  | "@any" => some .Any
  | _ => none

/-- The parameter-list loop of the `fn` branch
(`while(!this.#isAtEnd() && !this.#expect(TokenType.CloseParen))`):
collects `name` or `name : type` entries; a `name :` followed by a token
that is not one of the five type keywords performs no assignment at all;
a bare `name` defaults to `Any`. Returns the collected map and the
cursor after the loop exits. -/
def parseParams (tokens : List Token) : Nat → List (String × StackType) → Nat → PRes (List (String × StackType) × Nat)
  | 0, _, _ => .timeout
  | fuel + 1, params, pointer =>
      if isAtEnd tokens pointer then .ok (params, pointer)
      else
        let (b, p1) := expect tokens pointer .CloseParen none
        if b then .ok (params, p1)
        else
          let (bi, p3) := expect tokens (p1 - 1) .Identifier none
          if !bi then
            peekErr tokens p3 "Expected an identifier or parenthesis (`(`) after a opening parenthesis (`(`) of a function"
          else
            match peek tokens p3 with
            | none => .crash
            | some nameTok =>
                let name := nameTok.value
                let (bc, p4) := expect tokens p3 .Colon none
                if bc then
                  let p5 := p4 + 1
                  match peek tokens p5 with
                  | none => .crash
                  | some t =>
                      let params' :=
                        if t.type = .Keyword then
                          match paramTypeOf t.value with
                          | some st => setKey params name st
                          | none => params
                        else params
                      parseParams tokens fuel params' p5
                else
                  parseParams tokens fuel (setKey params name .Any) (p4 - 1)

mutual

/-- `Parser.#parseStatement` up to its `while` loop: records the block's
start position (crashing exactly when `#peek` does), skips the opening
token when not at root, and enters the block loop. The four boolean
parameters are, in declaration order, `isInRoot`, `isInLoop`, `isInIf`
and `isInFunction`. -/
def parseStatement (tokens : List Token) : Nat → Bool → Bool → Bool → Bool → PState → PRes (Program × PState)
  | 0, _, _, _, _, _ => .timeout
  | fuel + 1, isInRoot, isInLoop, isInIf, isInFunction, s =>
      match peek tokens s.pointer with
      | none => .crash
      | some startTok =>
          let s1 := if isInRoot then s else { s with pointer := s.pointer + 1 }
          parseLoop tokens fuel isInRoot isInLoop isInIf isInFunction startTok.startPos [] s1

/-- The `while(!this.#isAtEnd())` dispatch loop of
`Parser.#parseStatement`, one iteration per call. Every recursive
`#parseStatement` call reproduces the source's argument lists verbatim:
`(false, isInIf, isInFunction, true)` for the three loop forms,
`(false, true, isInFunction, isInLoop)` for `if`/`else`, and
`(false, isInIf, true, isInLoop)` for `fn` bodies. -/
def parseLoop (tokens : List Token) : Nat → Bool → Bool → Bool → Bool → Pos → Program → PState → PRes (Program × PState)
  | 0, _, _, _, _, _, _, _ => .timeout
  | fuel + 1, isInRoot, isInLoop, isInIf, isInFunction, startPos, block, s =>
      if isAtEnd tokens s.pointer then
        if !isInRoot then .err (errAt startPos "Expected ending bracket pair")
        else .ok (block, s)
      else
        match tokens.get? s.pointer with
        | none => .crash
        | some current =>
            if current.type ∈ [TokenType.OpenBracket, .CloseParen, .OpenParen, .Colon] then
              .err (errAt current.startPos ("Unexpected character: `" ++ current.value ++ "`"))
            else if current.type ∈ [TokenType.Int, .Float, .Str, .Bool, .Identifier] then
              parseLoop tokens fuel isInRoot isInLoop isInIf isInFunction startPos
                (block ++ [.expr current]) { s with pointer := s.pointer + 1 }
            else if current.type = .CloseBracket then
              .ok (block, { s with pointer := s.pointer + 1 })
            else if current.type = .Keyword then
              if current.value ∈ ["int", "bool", "str", "float"] then
                parseLoop tokens fuel isInRoot isInLoop isInIf isInFunction startPos
                  (block ++ [.expr current]) { s with pointer := s.pointer + 1 }
              else if current.value ∈ ["@int", "@bool", "@str", "@float", "@any"] then
                .err (errAt current.startPos ("Unexpected keyword `" ++ current.value ++ "`. Keyword `" ++ current.value ++ "` must only be found after function declarations"))
              else if current.value = "else" then
                .err (errAt current.startPos "Unexpected keyword `else`. Keyword `else` must only be found after an if statement")
              else if current.value = "any" then
                if isInFunction then
                  parseLoop tokens fuel isInRoot isInLoop isInIf isInFunction startPos
                    (block ++ [.expr current]) { s with pointer := s.pointer + 1 }
                else
                  .err (errAt current.startPos "Unexpected keyword `any`. Keyword `any` must only be found in `any` functions")
              else if current.value = "break" then
                if isInLoop then
                  parseLoop tokens fuel isInRoot isInLoop isInIf isInFunction startPos
                    (block ++ [.expr current]) { s with pointer := s.pointer + 1 }
                else
                  .err (errAt current.startPos "Unexpected keyword `break`. Keyword `break` must only be found in loops")
              else if current.value = "continue" then
                if isInLoop then
                  parseLoop tokens fuel isInRoot isInLoop isInIf isInFunction startPos
                    (block ++ [.expr current]) { s with pointer := s.pointer + 1 }
                else
                  .err (errAt current.startPos "Unexpected keyword `continue`. Keyword `continue` must only be found in loops")
              else if current.value = "loop" then
                let (b, p1) := expect tokens s.pointer .OpenBracket none
                if !b then peekErr tokens p1 "Expected an opening bracket (`\x7b`) after a loop statement"
                else
                  match parseStatement tokens fuel false isInIf isInFunction true { s with pointer := p1 } with
                  | .crash => .crash
                  | .timeout => .timeout
                  | .err e => .err e
                  | .ok (innerBlock, s1) =>
                      parseLoop tokens fuel isInRoot isInLoop isInIf isInFunction startPos
                        (block ++ [.stmt .Loop innerBlock none]) s1
              else if current.value = "for" then
                let (b, p1) := expect tokens s.pointer .Keyword (some "loop")
                if !b then peekErr tokens p1 "Expected a `loop` keyword after a `for` keyword"
                else
                  let (b2, p2) := expect tokens p1 .OpenBracket none
                  if !b2 then peekErr tokens p2 "Expected an opening bracket (`\x7b`) after a for loop statement"
                  else
                    match parseStatement tokens fuel false isInIf isInFunction true { s with pointer := p2 } with
                    | .crash => .crash
                    | .timeout => .timeout
                    | .err e => .err e
                    | .ok (innerBlock, s1) =>
                        parseLoop tokens fuel isInRoot isInLoop isInIf isInFunction startPos
                          (block ++ [.stmt .ForLoop innerBlock none]) s1
              else if current.value = "while" then
                let (b, p1) := expect tokens s.pointer .Keyword (some "loop")
                if !b then peekErr tokens p1 "Expected a `loop` keyword after a `while` keyword"
                else
                  let (b2, p2) := expect tokens p1 .OpenBracket none
                  if !b2 then peekErr tokens p2 "Expected an opening bracket (`\x7b`) after a while loop statement"
                  else
                    match parseStatement tokens fuel false isInIf isInFunction true { s with pointer := p2 } with
                    | .crash => .crash
                    | .timeout => .timeout
                    | .err e => .err e
                    | .ok (innerBlock, s1) =>
                        parseLoop tokens fuel isInRoot isInLoop isInIf isInFunction startPos
                          (block ++ [.stmt .WhileLoop innerBlock none]) s1
              else if current.value = "if" then
                let (b, p1) := expect tokens s.pointer .OpenBracket none
                if !b then peekErr tokens p1 "Expected an opening bracket (`\x7b`) after an if statement"
                else
                  match parseStatement tokens fuel false true isInFunction isInLoop { s with pointer := p1 } with
                  | .crash => .crash
                  | .timeout => .timeout
                  | .err e => .err e
                  | .ok (innerBlock, s1) =>
                      let s2 := { s1 with pointer := s1.pointer - 1 }
                      let (be, p2) := expect tokens s2.pointer .Keyword (some "else")
                      if be then
                        let (b3, p3) := expect tokens p2 .OpenBracket none
                        if !b3 then peekErr tokens p3 "Expected an opening bracket (`\x7b`) after an else statement"
                        else
                          match parseStatement tokens fuel false true isInFunction isInLoop { s2 with pointer := p3 } with
                          | .crash => .crash
                          | .timeout => .timeout
                          | .err e => .err e
                          | .ok (elseBlock, s3) =>
                              parseLoop tokens fuel isInRoot isInLoop isInIf isInFunction startPos
                                (block ++ [.stmt .If innerBlock (some elseBlock)]) s3
                      else
                        parseLoop tokens fuel isInRoot isInLoop isInIf isInFunction startPos
                          (block ++ [.stmt .If innerBlock none]) { s2 with pointer := p2 }
              else if current.value = "fn" then
                if !isInRoot then
                  .err (errAt current.startPos "Function declarations must not be nestles in other statements")
                else
                  let (b, p1) := expect tokens s.pointer .Identifier none
                  if !b then peekErr tokens p1 "Expected a identifier after a `fn` keyword"
                  else
                    match peek tokens p1 with
                    | none => .crash
                    | some nameTok =>
                        let name := nameTok.value
                        let (b2, p2) := expect tokens p1 .OpenParen none
                        if !b2 then peekErr tokens p2 "Expected an opening parenthesis (`(`) after a function identifier"
                        else
                          match peek tokens p2 with
                          | none => .crash
                          | some parenTok =>
                              let parenStartPos := parenTok.startPos
                              match parseParams tokens fuel [] p2 with
                              | .crash => .crash
                              | .timeout => .timeout
                              | .err e => .err e
                              | .ok (params, q) =>
                                  if isAtEnd tokens q then
                                    .err (errAt parenStartPos "Expected ending parenthesis pair")
                                  else
                                    let q2 := q + 1
                                    match (match tokens.get? q2 with
                                           | some t => if t.type = .Keyword then fnTypeOf t.value else none
                                           | none => none) with
                                    | some functionType =>
                                        let (b3, q3) := expect tokens q2 .OpenBracket none
                                        if !b3 then peekErr tokens q3 "Expected an opening bracket (`\x7b`) after a function declaration"
                                        else
                                          match parseStatement tokens fuel false isInIf true isInLoop { s with pointer := q3 } with
                                          | .crash => .crash
                                          | .timeout => .timeout
                                          | .err e => .err e
                                          | .ok (innerBlock, s1) =>
                                              parseLoop tokens fuel isInRoot isInLoop isInIf isInFunction startPos block
                                                { s1 with
                                                  newFunctions := s1.newFunctions ++ [name],
                                                  functions := setKey s1.functions name ⟨functionType, params, innerBlock⟩ }
                                    | none =>
                                        peekErr tokens q2 "Expected a function type (`@int`, `@str`, `@float`, `@bool`, `@any`) after a function declaration"
              else
                .err (errAt current.startPos ("Unknown keyword: `" ++ current.value ++ "`"))
            else
              .err (errAt current.startPos ("Unknown token: `" ++ current.value ++ "`"))

end

/-- `Parser.parse` for a parser constructed over `tokens` with the
initial (standard-library) function table `functions`: parses the root
block, then runs `#checkFunctions`; on success yields the program, the
final function table and the newly declared names. The fuel is an upper
bound on loop iterations and statement entries, generous for every run
examined below. -/
def parse (tokens : List Token) (functions : Funcs) : PRes (Program × Funcs × List String) :=
  match parseStatement tokens (2 * tokens.length + 16) true false false false ⟨0, functions, []⟩ with
  | .crash => .crash
  | .timeout => .timeout
  | .err e => .err e
  | .ok (block, s) =>
      match checkFunctions block s.functions s.newFunctions with
      | .crash => .crash
      | .timeout => .timeout
      | .err e => .err e
      | .ok _ => .ok (block, s.functions, s.newFunctions)

/-- Shorthand for building a concrete token on one line: type, line,
start column, end column, raw text. -/
def tk (ty : TokenType) (line c1 c2 : Nat) (v : String) : Token :=
  ⟨ty, ⟨line, c1⟩, ⟨line, c2⟩, v⟩

/-- The token sequence of the program `loop { break }`. -/
def tokensLoopBreak : List Token :=
  [tk .Keyword 1 1 4 "loop", tk .OpenBracket 1 6 6 "\x7b",
   tk .Keyword 1 8 12 "break", tk .CloseBracket 1 14 14 "\x7d"]

/-- The token sequence of the program `1 } (` — an integer literal, a
close bracket at root position, and a trailing token that would be a
parse error if it were ever reached. -/
def tokensRootClose : List Token :=
  [tk .Int 1 1 1 "1", tk .CloseBracket 1 3 3 "\x7d", tk .OpenParen 1 5 5 "("]

/-- The token sequence of `fn f ( x : foo ) @int { }`: a function
declaration whose parameter `x` is annotated with a token that is not
one of the five type keywords. -/
def tokensFnBadParamType : List Token :=
  [tk .Keyword 1 1 2 "fn", tk .Identifier 1 4 4 "f", tk .OpenParen 1 6 6 "(",
   tk .Identifier 1 8 8 "x", tk .Colon 1 10 10 ":", tk .Identifier 1 12 14 "foo",
   tk .CloseParen 1 16 16 ")", tk .Keyword 1 18 21 "@int",
   tk .OpenBracket 1 23 23 "\x7b", tk .CloseBracket 1 25 25 "\x7d"]

/-- The parameter map the parse of `tokensFnBadParamType` leaves behind
for `f`, or `none` if that parse did not succeed or did not declare
`f`. -/
def badParamTypeParams : Option (List (String × StackType)) :=
  match parse tokensFnBadParamType [] with
  | .ok (_, fns, _) => (lookupKey fns "f").map StackFunction.params
  | _ => none

/-- A non-root block opened at column 6 whose only content is an integer
literal: input ends before any closing bracket. -/
def tokensUnclosedBlock : List Token :=
  [tk .OpenBracket 1 6 6 "\x7b", tk .Int 1 8 8 "1"]

/-- A token that the block dispatch loop consumes in one step without
recursing or erroring: a literal, an identifier, or one of the four
type-cast keywords. -/
def simpleTok (t : Token) : Bool :=
  decide (t.type ∈ [TokenType.Int, .Float, .Str, .Bool, .Identifier]) ||
    (decide (t.type = .Keyword) && decide (t.value ∈ ["int", "bool", "str", "float"]))

/-!
## Theorems

One theorem per claim, C1 to C10, with helper lemmas where a claim needs
an induction.
-/

/-- C1: the claim says that for an If statement with an else block both
blocks are verified from Bool and an error in either is returned. The
code instead traverses the then block twice and never the else block:
here an If whose then block is empty and whose else block calls the
undeclared identifier `nope` passes verification with no error, where
the claim demands an undeclared-identifier error. -/
theorem c1_else_block_not_verified :
    traverse [] [Item.stmt .If [] (some [Item.expr (tk .Identifier 3 4 7 "nope")])] [] .Int = none := by
  simp [traverse]

/-- C2: the claim says `break` is accepted inside every loop body (the
is-in-loop flag forced true there). The code's recursive call for a
`loop` body passes `isInIf` in the `isInLoop` parameter position, so
`loop { break }` at the root is rejected with the contextual error at
the `break` token instead of parsing. This theorem evaluates the parser
at that failing input. -/
theorem c2_break_in_loop_rejected :
    parse tokensLoopBreak [] =
      .err "1:8 Unexpected keyword `break`. Keyword `break` must only be found in loops" := rfl

/-- C3, counterexample: the claim says a root-level `}` makes parsing
fail with a structural error and that the parser consumes the full
token sequence. On `1 } (` the parser instead succeeds, returning the
program `[1]`, and never reaches the trailing `(` that would have been
an "Unexpected character" error — so no error is produced and the
sequence is not fully consumed. -/
theorem c3_root_close_bracket_accepted :
    parse tokensRootClose [] = .ok ([Item.expr (tk .Int 1 1 1 "1")], [], []) := by
  have h1 : parseStatement tokensRootClose (2 * tokensRootClose.length + 16) true false false false ⟨0, [], []⟩ =
      .ok ([Item.expr (tk .Int 1 1 1 "1")], ⟨2, [], []⟩) := rfl
  simp [parse, h1, checkFunctions, traverse, checkNewFunctions, tk]

/-- C3, amended: a `}` at root position is not an error: the parser
closes the root block at that point and returns the statements parsed
so far, and whatever follows the root `}` — any token list at all — is
never consumed and never influences the result. -/
theorem c3_root_close_bracket_stops_parse :
    ∀ (rest : List Token) (functions : Funcs),
      parse (tk .Int 1 1 1 "1" :: tk .CloseBracket 1 3 3 "\x7d" :: rest) functions =
        .ok ([Item.expr (tk .Int 1 1 1 "1")], functions, []) := by
  intro rest fns
  have hlen : (tk .Int 1 1 1 "1" :: tk .CloseBracket 1 3 3 "\x7d" :: rest).length = rest.length + 2 := by
    simp
  have hfuel : 2 * (rest.length + 2) + 16 = ((2 * rest.length + 17) + 1) + 1 + 1 := by omega
  have h1 : parseStatement (tk .Int 1 1 1 "1" :: tk .CloseBracket 1 3 3 "\x7d" :: rest)
      (2 * (tk .Int 1 1 1 "1" :: tk .CloseBracket 1 3 3 "\x7d" :: rest).length + 16)
      true false false false ⟨0, fns, []⟩ =
      .ok ([Item.expr (tk .Int 1 1 1 "1")], ⟨2, fns, []⟩) := by
    rw [hlen, hfuel]
    simp [parseStatement, parseLoop, peek, isAtEnd, tk]
  simp only [tk, List.length_cons] at h1
  simp [parse, h1, checkFunctions, traverse, checkNewFunctions, tk]

/-- C4: verification of the root program starts from stack type Int with
the empty identifier context, and the body of each newly declared
function is verified starting from that function's declared stack type
with its own parameter map as identifier context: `#checkFunctions`
succeeds exactly when all of those walks return no error. -/
theorem c4_verification_initial_contexts :
    ∀ (prog : Program) (functions : Funcs) (newFns : List String),
      checkFunctions prog functions newFns = .ok () ↔
        (traverse functions prog [] .Int = none ∧
          ∀ n ∈ newFns, ∃ f, lookupKey functions n = some f ∧
            traverse functions f.body f.params f.stack = none) := by
  have hgo : ∀ (functions : Funcs) (l : List String),
      checkNewFunctions functions l = .ok () ↔
        ∀ n ∈ l, ∃ f, lookupKey functions n = some f ∧
          traverse functions f.body f.params f.stack = none := by
    intro functions l
    induction l with
    | nil => simp [checkNewFunctions]
    | cons n rest ih =>
        cases hl : lookupKey functions n with
        | none => simp [checkNewFunctions, hl]
        | some f =>
            cases ht : traverse functions f.body f.params f.stack with
            | none => simp [checkNewFunctions, hl, ht, ih]
            | some e => simp [checkNewFunctions, hl, ht]
  intro prog functions newFns
  cases hr : traverse functions prog [] .Int with
  | none => simp [checkFunctions, hr, hgo]
  | some e => simp [checkFunctions, hr]

/-- C5: a ForLoop body is verified starting from Int and the stack type
after the loop is Int; a WhileLoop body from Bool, leaving Bool; a
plain Loop body from the incoming stack type, leaving it unchanged —
each regardless of the stack type before the statement. -/
theorem c5_loop_body_initial_types :
    ∀ (fns : Funcs) (blk : Program) (els : Option Program) (rest : Program)
      (ctx : List (String × StackType)) (st : StackType),
      (traverse fns (Item.stmt .ForLoop blk els :: rest) ctx st =
        match traverse fns blk ctx .Int with
        | some e => some e
        | none => traverse fns rest ctx .Int) ∧
      (traverse fns (Item.stmt .WhileLoop blk els :: rest) ctx st =
        match traverse fns blk ctx .Bool with
        | some e => some e
        | none => traverse fns rest ctx .Bool) ∧
      (traverse fns (Item.stmt .Loop blk els :: rest) ctx st =
        match traverse fns blk ctx st with
        | some e => some e
        | none => traverse fns rest ctx st) := by
  intro fns blk els rest ctx st
  refine ⟨?_, ?_, ?_⟩ <;> rw [traverse]

/-- C6: at an identifier token the verifier first consults the
identifier context (a parameter replaces the current stack type, taking
precedence over any function of the same name), then the function
table (the call is accepted exactly when the function's declared stack
type equals the current one or is Any, and otherwise yields the
type error at the token), and otherwise reports an undeclared
identifier error at the token. -/
theorem c6_identifier_dispatch :
    ∀ (fns : Funcs) (tok : Token) (rest : Program)
      (ctx : List (String × StackType)) (st : StackType),
      tok.type = .Identifier →
      traverse fns (Item.expr tok :: rest) ctx st =
        match lookupKey ctx tok.value with
        | some t => traverse fns rest ctx t
        | none =>
            match lookupKey fns tok.value with
            | some f =>
                if f.stack = st ∨ f.stack = .Any then traverse fns rest ctx st
                else some (errAt tok.startPos ("Attempt to call function not found at stack " ++ st.render ++ ": `" ++ tok.value ++ "`"))
            | none => some (errAt tok.startPos ("Undeclared identifier: `" ++ tok.value ++ "`")) := by
  intro fns tok rest ctx st h
  rw [traverse, if_pos h]
  cases lookupKey ctx tok.value with
  | some t => rfl
  | none =>
      cases lookupKey fns tok.value with
      | none => rfl
      | some f =>
          by_cases hf : f.stack = st ∨ f.stack = StackType.Any
          · have hns : ¬(f.stack ≠ st ∧ f.stack ≠ StackType.Any) := by tauto
            simp [hf, hns]
          · have hns : f.stack ≠ st ∧ f.stack ≠ StackType.Any := by tauto
            simp [hf, hns]

/-- C6, witness: the dispatch theorem applied to the identifier `foo`
under the empty context and empty function table yields the undeclared
identifier error at its token. -/
theorem c6_identifier_dispatch_witness :
    traverse [] [Item.expr (tk .Identifier 1 1 3 "foo")] [] .Int =
      some "1:1 Undeclared identifier: `foo`" := by
  rw [c6_identifier_dispatch [] (tk .Identifier 1 1 3 "foo") [] [] .Int rfl]
  rfl

/-- C7: a successful function-call identifier leaves the current stack
type unchanged — the called function's declared type never replaces
it. -/
theorem c7_successful_call_keeps_stack :
    ∀ (fns : Funcs) (tok : Token) (rest : Program)
      (ctx : List (String × StackType)) (st : StackType) (f : StackFunction),
      tok.type = .Identifier →
      lookupKey ctx tok.value = none →
      lookupKey fns tok.value = some f →
      (f.stack = st ∨ f.stack = .Any) →
      traverse fns (Item.expr tok :: rest) ctx st = traverse fns rest ctx st := by
  intro fns tok rest ctx st f h hc hf hs
  rw [traverse, if_pos h, hc, hf]
  have hns : ¬(f.stack ≠ st ∧ f.stack ≠ StackType.Any) := by tauto
  simp [hns]

/-- C7, witness: calling the Int-typed function `f0` at stack type Int
continues the walk with the stack type still Int. -/
theorem c7_successful_call_keeps_stack_witness :
    traverse [("f0", ⟨StackType.Int, [], []⟩)]
        [Item.expr (tk .Identifier 1 1 2 "f0"), Item.expr (tk .Identifier 1 4 5 "f0")] [] .Int =
      traverse [("f0", ⟨StackType.Int, [], []⟩)] [Item.expr (tk .Identifier 1 4 5 "f0")] [] .Int :=
  c7_successful_call_keeps_stack _ _ _ _ _ _ rfl rfl rfl (Or.inl rfl)

/-- Helper for C8: once inside a non-root block, if every remaining
token up to the end of input is a plain expression token (so the block
can never close), the dispatch loop walks them all, reaches the end of
input, and reports the ending-bracket error at the block's recorded
start position. -/
theorem parseLoop_simple_suffix_eoi :
    ∀ (tokens : List Token) (k : Nat), ∀ (q fuel : Nat) (l i f : Bool) (startPos : Pos)
      (block : Program) (fns : Funcs) (nfs : List String),
      tokens.length ≤ q + k →
      q ≤ tokens.length →
      tokens.length + 1 ≤ fuel + q →
      (∀ j t, q ≤ j → tokens[j]? = some t → simpleTok t = true) →
      parseLoop tokens fuel false l i f startPos block ⟨q, fns, nfs⟩ =
        .err (errAt startPos "Expected ending bracket pair") := by
  intro tokens k
  induction k with
  | zero =>
      intro q fuel l i f startPos block fns nfs hk hq hfuel hsimp
      cases fuel with
      | zero => omega
      | succ fuel' =>
          have hend : tokens.length ≤ q := by omega
          simp [parseLoop, isAtEnd, hend]
  | succ k ih =>
      intro q fuel l i f startPos block fns nfs hk hq hfuel hsimp
      by_cases hend : tokens.length ≤ q
      · cases fuel with
        | zero => omega
        | succ fuel' => simp [parseLoop, isAtEnd, hend]
      · have hlt : q < tokens.length := by omega
        cases fuel with
        | zero => omega
        | succ fuel' =>
            have ht : tokens[q]? = some tokens[q] := List.getElem?_eq_getElem hlt
            have hcur := hsimp q tokens[q] (le_refl q) ht
            simp only [simpleTok, Bool.or_eq_true, Bool.and_eq_true, decide_eq_true_eq] at hcur
            have hrec : parseLoop tokens fuel' false l i f startPos
                (block ++ [.expr tokens[q]]) ⟨q + 1, fns, nfs⟩ =
                .err (errAt startPos "Expected ending bracket pair") := by
              refine ih (q + 1) fuel' l i f startPos _ fns nfs (by omega) (by omega) (by omega) ?_
              intro j t hj hjt
              exact hsimp j t (by omega) hjt
            rcases hcur with hmem | ⟨hkw, hval⟩
            · simp only [List.mem_cons, List.mem_singleton, List.not_mem_nil, or_false] at hmem
              rcases hmem with h5 | h5 | h5 | h5 | h5 <;>
                simp [parseLoop, isAtEnd, hend, ht, h5, hrec]
            · simp only [List.mem_cons, List.mem_singleton, List.not_mem_nil, or_false] at hval
              rcases hval with h4 | h4 | h4 | h4 <;>
                simp [parseLoop, isAtEnd, hend, ht, hkw, h4, hrec]

/-- C8: entering a non-root block at an opening `{` (as every non-root
`#parseStatement` call does) whose following tokens are all plain
expression tokens — so end of input is reached while still inside the
block — fails with the "Expected ending bracket pair" error whose
reported position is exactly the position of that opening `{`. -/
theorem c8_unterminated_block_error :
    ∀ (tokens : List Token) (p fuel : Nat) (l i f : Bool) (op : Token)
      (fns : Funcs) (nfs : List String),
      tokens[p]? = some op →
      op.type = .OpenBracket →
      (∀ j t, p < j → tokens[j]? = some t → simpleTok t = true) →
      tokens.length + 2 ≤ fuel + p →
      parseStatement tokens fuel false l i f ⟨p, fns, nfs⟩ =
        .err (errAt op.startPos "Expected ending bracket pair") := by
  intro tokens p fuel l i f op fns nfs hget hty hsimp hfuel
  have hp : p < tokens.length := by
    by_contra hc
    rw [List.getElem?_eq_none (by omega)] at hget
    exact Option.noConfusion hget
  cases fuel with
  | zero => omega
  | succ fuel' =>
      have hpeek : peek tokens p = some op := by
        simp [peek, Nat.not_le.mpr hp, hget]
      rw [parseStatement, hpeek]
      show parseLoop tokens fuel' false l i f op.startPos [] ⟨p + 1, fns, nfs⟩ = _
      refine parseLoop_simple_suffix_eoi tokens tokens.length (p + 1) fuel' l i f op.startPos
        [] fns nfs (by omega) (by omega) (by omega) ?_
      intro j t hj hjt
      exact hsimp j t (by omega) hjt

/-- C8, witness: the unterminated block `{ 1` opened at line 1 column 6
errors at exactly that position. -/
theorem c8_unterminated_block_error_witness :
    parseStatement tokensUnclosedBlock 4 false false false false ⟨0, [], []⟩ =
      .err "1:6 Expected ending bracket pair" := by
  refine c8_unterminated_block_error tokensUnclosedBlock 0 4 false false false
    (tk .OpenBracket 1 6 6 "\x7b") [] [] rfl rfl ?_ (by simp [tokensUnclosedBlock])
  intro j t hj hjt
  match j, hj with
  | 1, _ =>
      simp only [tokensUnclosedBlock, List.getElem?_cons_succ, List.getElem?_cons_zero] at hjt
      cases hjt
      decide
  | j + 2, _ =>
      simp [tokensUnclosedBlock] at hjt

/-- C9: on the empty token sequence `parse` neither returns a program
nor an error: the initial peek reads the undefined element before index
zero and the run throws, modelled as the crash outcome — whatever
standard-library table the parser was constructed with. -/
theorem c9_parse_empty_crashes :
    ∀ (functions : Funcs), parse [] functions = .crash := by
  intro functions
  rfl

/-- C10, counterexample: the claim says the parameter `x` of
`fn f ( x : foo ) @int { }` is recorded in the params map (with an
undefined stack type). The parse succeeds with no error, but the params
map it records for `f` is empty — `x` is not present at all. -/
theorem c10_bad_param_type_counterexample : badParamTypeParams = some [] := by
  have h1 : parseStatement tokensFnBadParamType (2 * tokensFnBadParamType.length + 16) true false false false ⟨0, [], []⟩ =
      .ok ([], ⟨10, [("f", ⟨StackType.Int, [], []⟩)], ["f"]⟩) := rfl
  simp [badParamTypeParams, parse, h1, checkFunctions, traverse, checkNewFunctions, lookupKey]

/-- C10, amended: a parameter written `name :` followed by a token that
is not one of the five type keywords is silently dropped: the parser
reports no error and the declared function's params map simply omits
it — it is neither rejected, nor defaulted to Any, nor recorded. -/
theorem c10_bad_param_type_omitted :
    parse tokensFnBadParamType [] = .ok ([], [("f", ⟨StackType.Int, [], []⟩)], ["f"]) := by
  have h1 : parseStatement tokensFnBadParamType (2 * tokensFnBadParamType.length + 16) true false false false ⟨0, [], []⟩ =
      .ok ([], ⟨10, [("f", ⟨StackType.Int, [], []⟩)], ["f"]⟩) := rfl
  simp [parse, h1, checkFunctions, traverse, checkNewFunctions, lookupKey]

end TypeStack
